import Mathlib

/-!
Shallow embedding of `telescopestatus/data.py` — the `TelescopeData` class:
parameter validation, fetch/cache orchestration, csv/pickle export/import and
the chart-aggregation methods — together with models of the external
collaborators (the astroquery MAST archive, pandas csv/pickle I/O, plotly
figures) at the level of detail the verified properties need.

Modelling conventions:
* astropy `Time` values are their MJD number (an integer is enough for the
  comparisons and the date formatting the code performs);
* Python exceptions become an explicit `PyError` value; a mutating method
  returns an `MRes`: the lines it printed, the object state when it returned
  or raised (Python mutates `self` in place, so state changes made before a
  raise survive), and the raised exception if any;
* the archive service (`Observations.list_missions` / `login` /
  `query_criteria`) and the filesystem are parameters (`Archive`, `fs`), so
  theorems quantify over their behaviour.
-/

/-- Astropy `Time`, modelled by its MJD value. Scalar `Time` objects are
truthy in Python (`ShapedLikeNDArray.__bool__` is `size > 0`). -/
abbrev Time := Int

/-- Module constant `default_min_year = Time('1990-01-01')`; 47892 is the MJD
of 1990-01-01. -/
def default_min_year : Time := 47892

/-- Python exceptions that the embedded code can raise or observe. -/
inductive PyError where
  /-- `ValueError(msg)` — raised by the validation code itself. -/
  | valueError : String → PyError
  /-- `KeyError(col)` — pandas column lookup on a missing column. -/
  | keyError : String → PyError
  /-- `NameError`/`UnboundLocalError` — a local variable read before any
  assignment (the `read_data` fall-through). -/
  | nameError : String → PyError
  /-- `pandas.errors.EmptyDataError` from `read_csv` on a blank file. -/
  | emptyDataError : PyError
  /-- `FileNotFoundError` from opening a missing file. -/
  | fileNotFoundError : String → PyError
  /-- A parse/decode error from feeding a file to the wrong pandas reader. -/
  | parseError : String → PyError
  /-- The exception propagated out of `Observations.login`. -/
  | loginError : String → PyError
  /-- The exception propagated out of `Observations.query_criteria`. -/
  | queryError : String → PyError
deriving DecidableEq, Repr

/-- `str(e)` — the printable message of an exception, as `print(e)` shows. -/
def PyError.msg : PyError → String
  | .valueError m => m
  | .keyError m => m
  | .nameError m => m
  | .emptyDataError => "No columns to parse from file"
  | .fileNotFoundError m => m
  | .parseError m => m
  | .loginError m => m
  | .queryError m => m

/-- A pandas `DataFrame`: named columns and rows of cells. Cell values are
kept as strings (the claims under verification only inspect column names,
row counts and grouping, never numeric cell arithmetic). -/
structure DataFrame where
  cols : List String
  rows : List (List String)
deriving DecidableEq, Repr

/-- `pd.DataFrame()` — the empty frame: no columns, no rows. -/
def DataFrame.empty : DataFrame := ⟨[], []⟩

/-- `df[c]` — column selection; raises `KeyError` when `c` is not a column,
otherwise yields the cells of that column in row order. -/
def DataFrame.getCol (df : DataFrame) (c : String) : Except PyError (List String) :=
  if c ∈ df.cols then
    Except.ok (df.rows.map (fun r => r.getD (df.cols.indexOf c) ""))
  else
    Except.error (PyError.keyError c)

/-- The state of one `TelescopeData` instance: the fields `__init__` creates.
(`__init__` sets `self.data = None` before calling `set_data`, which always
overwrites it with `pd.DataFrame()` before anything can read it; the
placeholder is therefore modelled as the empty frame.) -/
structure TState where
  telescope : Option String
  start_time : Time
  end_time : Time
  data : DataFrame
deriving DecidableEq, Repr

/-- The state `__init__` builds before its `set_data` call:
`telescope = None`, `start_time = default_min_year`, `end_time = Time.now()`,
`data` empty. -/
def initState (now : Time) : TState :=
  ⟨none, default_min_year, now, DataFrame.empty⟩

/-- Result of a mutating method call: the lines printed, the object state at
return or raise time, and the exception raised (if any). -/
structure MRes where
  log : List String
  st : TState
  err : Option PyError
deriving DecidableEq, Repr

/-- The MAST archive service as seen through astroquery:
`Observations.list_missions()`, `Observations.login(token)` and
`Observations.query_criteria(...)` (the latter two may raise, modelled as
`Except.error` carrying the exception text). -/
structure Archive where
  missions : List String
  login : String → Except String Unit
  query : Option String → Time → Time → Option Nat → Except String DataFrame

/-- Truthiness of an optional Python string: `None` and `""` are falsy. -/
def truthyStr : Option String → Bool
  | none => false
  | some s => if s = "" then false else true

/-- `o or ""`-style extraction used when a truthy optional string is consumed. -/
def optStr : Option String → String
  | none => ""
  | some s => s

/-- Python `str.upper()`: uppercase every character. (Stated over the
character list; `String.toUpper` in the Lean library is the same map but is
opaque to kernel reduction.) -/
def pyUpper (s : String) : String := ⟨s.data.map Char.toUpper⟩

/-- The values a caller can pass as `start_time`/`end_time`: a `str`, a
`datetime.datetime`, an astropy `Time`, or some other object (tagged by its
`repr`). -/
inductive TimeParam where
  | str : String → TimeParam
  | datetime : Int → TimeParam
  | time : Time → TimeParam
  | other : String → TimeParam
deriving DecidableEq, Repr

/-- Python truthiness of a time parameter: only the empty string is falsy
among the values modelled (`other` stands for truthy non-time objects). -/
def TimeParam.truthy : TimeParam → Bool
  | .str s => if s = "" then false else true
  | .datetime _ => true
  | .time _ => true
  | .other _ => true

/-- `f"{time}"` — the interpolation of the parameter into the error message. -/
def TimeParam.pyStr : TimeParam → String
  | .str s => s
  | .datetime d => "datetime " ++ toString d
  | .time t => "Time " ++ toString t
  | .other r => r

/-- The expression `Time(str)` at data.py line 94: the astropy `Time`
constructor applied to the BUILTIN TYPE `str` — not to the parameter `time` —
which unconditionally raises (`str` is not a value `Time` accepts). -/
def timeOfStrType : Except String Time :=
  Except.error "Invalid input for Time: the builtin type str"

/-- `TelescopeData.validate_and_convert_time_param` (data.py 89-100).
`now` is the value `Time.now()` would return. -/
def validate_and_convert_time_param (now : Time) (time : TimeParam) :
    Except PyError Time :=
  match time with
  | .str s =>
      if s = "now" then Except.ok now
      else
        -- try: return Time(str)  /  except: raise ValueError(...)
        match timeOfStrType with
        | .ok t => Except.ok t
        | .error _ =>
            Except.error (PyError.valueError
              (TimeParam.pyStr (.str s) ++ " -> Improper format for time."))
  | .datetime d =>
      -- a datetime never equals the string "now", so it falls to Time(str)
      match timeOfStrType with
      | .ok t => Except.ok t
      | .error _ =>
          Except.error (PyError.valueError
            (TimeParam.pyStr (.datetime d) ++ " -> Improper format for time."))
  | .time t => Except.ok t
  | .other r =>
      Except.error (PyError.valueError
        (TimeParam.pyStr (.other r) ++ " -> Improper format for time."))

/-- Line 60/61: `x = self.validate_and_convert_time_param(x) if x else cur`. -/
def resolveTimeParam (now : Time) (cur : Time) (p : Option TimeParam) :
    Except PyError Time :=
  match p with
  | none => Except.ok cur
  | some q => if q.truthy then validate_and_convert_time_param now q else Except.ok cur

/-- `page = 1 if max_data else None, pagesize = max_data if max_data else None`
— the pagesize actually sent to the archive (0 is falsy, hence no paging). -/
def pagingOf : Option Nat → Option Nat
  | none => none
  | some n => if n = 0 then none else some n

/-- The message of the `ValueError` raised for an unknown telescope:
`f"Invalid telescope/mission name given. Please use {', '.join(...)}."`
(the join is over the archive list as returned, not uppercased). -/
def invalidTelescopeMsg (A : Archive) : String :=
  "Invalid telescope/mission name given. Please use " ++
    String.intercalate ", " A.missions ++ "."

/-- A saved data file: the csv text (as lines of comma-separated fields) or a
pickled frame. -/
inductive FileContent where
  | csv : List (List String) → FileContent
  | pickle : DataFrame → FileContent
deriving DecidableEq, Repr

/-- The pandas default `RangeIndex` serialisation: row `i` gains a leading
index cell `toString i`. -/
def indexRows : Nat → List (List String) → List (List String)
  | _, [] => []
  | i, r :: rs => (toString i :: r) :: indexRows (i + 1) rs

/-- `df.to_csv(path)` with pandas defaults (`index=True`): a header line whose
first field (the index column's name) is empty, then the indexed rows. The
empty frame serialises to the single blank line pandas writes for it. -/
def pdToCsv (df : DataFrame) : List (List String) :=
  ("" :: df.cols) :: indexRows 0 df.rows

/-- `pd.read_csv` header fixing: a column with an empty name at position `i`
becomes `Unnamed: i`. -/
def fixCols : Nat → List String → List String
  | _, [] => []
  | i, c :: cs =>
      (if c = "" then "Unnamed: " ++ toString i else c) :: fixCols (i + 1) cs

/-- `pd.read_csv(path)` with defaults: a missing file raises, a pickle fed to
the text reader raises, blank lines are skipped (`skip_blank_lines=True`), a
file with no remaining lines raises `EmptyDataError`, otherwise the first
line is the header (empty names become `Unnamed: i`) and the rest the rows. -/
def pdReadCsv (file : Option FileContent) : Except PyError DataFrame :=
  match file with
  | none => Except.error (PyError.fileNotFoundError "No such file or directory")
  | some (.pickle _) => Except.error (PyError.parseError "invalid text data")
  | some (.csv lines) =>
      match lines.filter (fun l => decide (l ≠ [""])) with
      | [] => Except.error PyError.emptyDataError
      | header :: rest => Except.ok ⟨fixCols 0 header, rest⟩

/-- `pd.read_pickle(path)`: missing file raises, non-pickle bytes raise,
otherwise the stored frame is returned exactly. -/
def pdReadPickle (file : Option FileContent) : Except PyError DataFrame :=
  match file with
  | none => Except.error (PyError.fileNotFoundError "No such file or directory")
  | some (.csv _) => Except.error (PyError.parseError "invalid pickle data")
  | some (.pickle df) => Except.ok df

/-- `TelescopeData.export_data` (data.py 145-149). Returns the file written,
if any: the `if/elif` has no `else`, so an unrecognised `file_type` writes
nothing and raises nothing. -/
def export_data (st : TState) (file_name : String) (file_type : String) :
    Option (String × FileContent) :=
  if file_type = "csv" then some (file_name, FileContent.csv (pdToCsv st.data))
  else if file_type = "pickle" then some (file_name, FileContent.pickle st.data)
  else none

/-- `TelescopeData.read_data` (data.py 151-156). `file` is the content found
at `file_path`. On a recognised type the parsed frame is assigned to
`self.data`; an unrecognised type leaves the local `data` unbound, so the
final `self.data = data` raises an unbound-local `NameError` with `self.data`
untouched. -/
def read_data (st : TState) (file : Option FileContent) (file_type : String) :
    MRes :=
  if file_type = "csv" then
    match pdReadCsv file with
    | .ok df => ⟨[], { st with data := df }, none⟩
    | .error e => ⟨[], st, some e⟩
  else if file_type = "pickle" then
    match pdReadPickle file with
    | .ok df => ⟨[], { st with data := df }, none⟩
    | .error e => ⟨[], st, some e⟩
  else
    ⟨[], st, some (PyError.nameError
      "cannot access local variable data where it is not associated with a value")⟩

/-- `str(self.telescope)` as the loading banner interpolates it. -/
def pyShowOptStr : Option String → String
  | none => "None"
  | some s => s

/-- The query half of `fetch_telescope_data` (data.py 124-142): print the
loading banner, run `Observations.query_criteria`, store the frame on
success, print and RE-RAISE on failure. -/
def fetchQueryPart (A : Archive) (st : TState) (max_data : Option Nat) : MRes :=
  let loading := "[ Loading " ++ pyShowOptStr st.telescope ++ " data from MAST... ]"
  match A.query st.telescope st.start_time st.end_time (pagingOf max_data) with
  | .ok df => ⟨[loading, "[ Done loading data! ]"], { st with data := df }, none⟩
  | .error m => ⟨[loading, "[ Error getting data ]"], st, some (PyError.queryError m)⟩

/-- `TelescopeData.fetch_telescope_data` (data.py 103-142): if a truthy token
was given, `Observations.login` runs first — a login failure prints the
banner and RE-RAISES before any query; otherwise the query half runs. -/
def fetch_telescope_data (A : Archive) (st : TState) (max_data : Option Nat)
    (token : Option String) : MRes :=
  if truthyStr token then
    match A.login (optStr token) with
    | .ok _ => fetchQueryPart A st max_data
    | .error m => ⟨["[ Login error. ]"], st, some (PyError.loginError m)⟩
  else
    fetchQueryPart A st max_data

/-- `TelescopeData.set_data` (data.py 36-86). `fs` maps a path to the file
found there. Mutation order follows the source: the uppercased telescope is
assigned BEFORE its membership check; the time fields and the empty frame are
assigned only after all validation passed; the trailing fetch or cache load
is wrapped in `except Exception as e: print(e)`. -/
def set_data (A : Archive) (now : Time) (fs : String → Option FileContent)
    (st : TState) (telescope : Option String)
    (start_time end_time : Option TimeParam) (max_data : Option Nat)
    (token : Option String) (data_file_path data_file_type : Option String) :
    MRes :=
  -- lines 53-56: assign self.telescope, then check membership
  let st1 := if truthyStr telescope then
      { st with telescope := some (pyUpper (optStr telescope)) } else st
  if truthyStr telescope ∧
      ¬ pyUpper (optStr telescope) ∈ A.missions.map pyUpper then
    ⟨[], st1, some (PyError.valueError (invalidTelescopeMsg A))⟩
  else
    -- lines 60-61: resolve the time parameters (may raise)
    match resolveTimeParam now st1.start_time start_time with
    | .error e => ⟨[], st1, some e⟩
    | .ok s =>
      match resolveTimeParam now st1.end_time end_time with
      | .error e => ⟨[], st1, some e⟩
      | .ok e =>
        -- lines 63-66: both resolved times are truthy Time objects
        if s > e then
          ⟨[], st1, some (PyError.valueError "start_time should be less than end_time.")⟩
        else
          -- lines 68-71: assign the range and reset the table
          let st2 := { st1 with start_time := s, end_time := e, data := DataFrame.empty }
          if truthyStr data_file_path then
            if ¬ truthyStr data_file_type then
              ⟨[], st2, some (PyError.valueError
                "data_file_type should be given in addition to data_file_path.")⟩
            else
              -- lines 77-80: try read_data, except print(e)
              match read_data st2 (fs (optStr data_file_path)) (optStr data_file_type) with
              | ⟨lg, st3, none⟩ => ⟨lg, st3, none⟩
              | ⟨lg, st3, some e⟩ => ⟨lg ++ [e.msg], st3, none⟩
          else
            -- lines 83-86: try fetch_telescope_data, except print(e)
            match fetch_telescope_data A st2 max_data token with
            | ⟨lg, st3, none⟩ => ⟨lg, st3, none⟩
            | ⟨lg, st3, some e⟩ => ⟨lg ++ [e.msg], st3, none⟩

/-- `TelescopeData.__init__` (data.py 15-33): build the field placeholders
and delegate everything to `set_data` (the caller-supplied or default
`start_time`/`end_time` are always concrete `Time` values here). -/
def initTelescopeData (A : Archive) (now : Time)
    (fs : String → Option FileContent) (telescope : String)
    (start_time end_time : Time) (max_data : Option Nat)
    (token : Option String) (data_file_path data_file_type : Option String) :
    MRes :=
  set_data A now fs (initState now) (some telescope)
    (some (TimeParam.time start_time)) (some (TimeParam.time end_time))
    max_data token data_file_path data_file_type

/-- A plotly figure, reduced to the parts the code determines: chart kind,
the data series (names/values for a pie, paired points for a scatter), the
axis relabelling and the title. -/
structure Figure where
  kind : String
  names : List String
  values : List Nat
  points : List (String × String)
  labels : List (String × String)
  title : String
deriving DecidableEq, Repr

/-- `Series.value_counts()`: occurrence counts of the distinct values.
(pandas orders by descending count; no verified property depends on the
order, so first-occurrence order is used.) -/
def valueCounts (xs : List String) : List (String × Nat) :=
  xs.dedup.map (fun v => (v, xs.count v))

/-- `Time.to_value("iso", subfmt="date")` — the `YYYY-MM-DD` rendering, an
injective stand-in on the MJD model; only its presence in titles matters. -/
def isoDate (t : Time) : String := toString t

/-- `TelescopeData._pie_chart` (data.py 159-175): `self.data[column]` (which
raises `KeyError` on a missing column), `value_counts`, then the plotly pie. -/
def pieChart (st : TState) (column columnName title : String) :
    Except PyError Figure :=
  match st.data.getCol column with
  | .error e => Except.error e
  | .ok xs =>
      let counts := valueCounts xs
      Except.ok ⟨"pie", counts.map Prod.fst, counts.map Prod.snd, [],
        [(column, columnName), ("count", "# of Observations")],
        title ++ " (between " ++ isoDate st.start_time ++ " and " ++
          isoDate st.end_time ++ ")"⟩

/-- `TelescopeData.instruments_pie` (data.py 178-185); the title f-string
evaluates `self.telescope.upper()` first, which on a `None` telescope raises
an attribute error (carried here by the `nameError` constructor, the
attribute-lookup failure family). -/
def instruments_pie (st : TState) : Except PyError Figure :=
  match st.telescope with
  | none => Except.error (PyError.nameError "NoneType object has no attribute upper")
  | some t =>
      pieChart st "instrument_name" "Instrument"
        ("Instrument Usage in " ++ pyUpper t ++ " Observations")

/-- `TelescopeData.data_type_pie` (data.py 188-195). -/
def data_type_pie (st : TState) : Except PyError Figure :=
  match st.telescope with
  | none => Except.error (PyError.nameError "NoneType object has no attribute upper")
  | some t =>
      pieChart st "dataproduct_type" "Data Product Type"
        ("Data Product Type of " ++ pyUpper t ++ " Observations")

/-- `px.scatter(df, x=x, y=y)`: raises `ValueError` when either name is not a
column of the frame; otherwise builds the scatter from the paired cells
(plotly plots non-numeric columns on categorical axes without error, so no
numeric check exists). -/
def pxScatter (df : DataFrame) (x y : String) : Except PyError Figure :=
  if x ∈ df.cols then
    if y ∈ df.cols then
      Except.ok ⟨"scatter", [], [],
        df.rows.map (fun r =>
          (r.getD (df.cols.indexOf x) "", r.getD (df.cols.indexOf y) "")),
        [], ""⟩
    else
      Except.error (PyError.valueError
        ("Value of y is not the name of a column in data_frame: " ++ y))
  else
    Except.error (PyError.valueError
      ("Value of x is not the name of a column in data_frame: " ++ x))

/-- `TelescopeData.compare_scatter` (data.py 220-236): the plotly call is
wrapped in `try/except`; any failure prints two lines and falls off the end
of the function, returning `None` — no exception ever reaches the caller. -/
def compare_scatter (st : TState) (x y : String) : List String × Option Figure :=
  match pxScatter st.data x y with
  | .ok fig => ([], some fig)
  | .error e =>
      (["Error, likely gave invalid column name(s), or columns that weren\x27t numeric.",
        e.msg], none)

/-- The stored telescope field is either still unset or a normalised
(uppercased) member of the archive mission set. -/
def TelValid (A : Archive) (o : Option String) : Prop :=
  o = none ∨ ∃ s, o = some s ∧ s ∈ A.missions.map pyUpper

/-! Concrete fixtures used by counterexamples and witnesses. -/

/-- A healthy archive: four missions, logins succeed, queries return the
empty frame. -/
def mastOk : Archive :=
  ⟨["SWIFT", "HST", "JWST", "TESS"], fun _ => Except.ok (),
    fun _ _ _ _ => Except.ok DataFrame.empty⟩

/-- An archive that rejects every login token. -/
def mastBadAuth : Archive :=
  ⟨["JWST", "HST"], fun _ => Except.error "401 Unauthorized",
    fun _ _ _ _ => Except.ok DataFrame.empty⟩

/-- An archive whose every query fails (e.g. memory exhaustion). -/
def mastDown : Archive :=
  ⟨["JWST", "HST"], fun _ => Except.ok (),
    fun _ _ _ _ => Except.error "MemoryError"⟩

/-- A filesystem on which every path is missing. -/
def noFs : String → Option FileContent := fun _ => none

/-- A one-column, one-row table. -/
def dfA : DataFrame := ⟨["a"], [["1"]]⟩

/-- A three-row observation table as the MAST query returns it. -/
def dfObs : DataFrame :=
  ⟨["instrument_name", "dataproduct_type", "t_exptime"],
    [["NIRCam", "image", "100.0"], ["NIRCam", "image", "200.0"],
      ["MIRI", "spectrum", "50.0"]]⟩

/-- A populated instance state. -/
def stJ : TState := ⟨some "JWST", 47892, 60000, dfObs⟩

/-- An instance state holding the one-cell table `dfA`. -/
def stA : TState := ⟨some "JWST", 47892, 60000, dfA⟩

/-- An instance whose table has the chart columns but zero rows. -/
def stEmptyRows : TState :=
  ⟨some "JWST", 47892, 60000, ⟨["instrument_name", "dataproduct_type"], []⟩⟩

/-- An instance whose table is the fully empty `pd.DataFrame()` — the state a
failed fetch leaves behind. -/
def stEmpty : TState := ⟨some "JWST", 47892, 60000, DataFrame.empty⟩

/-! ## Helper lemmas -/

theorem read_data_preserves (st : TState) (f : Option FileContent) (ft : String) :
    (read_data st f ft).st.telescope = st.telescope ∧
    (read_data st f ft).st.start_time = st.start_time ∧
    (read_data st f ft).st.end_time = st.end_time := by
  unfold read_data
  by_cases h1 : ft = "csv"
  · rw [if_pos h1]
    cases hc : pdReadCsv f <;> exact ⟨rfl, rfl, rfl⟩
  · rw [if_neg h1]
    by_cases h2 : ft = "pickle"
    · rw [if_pos h2]
      cases hc : pdReadPickle f <;> exact ⟨rfl, rfl, rfl⟩
    · rw [if_neg h2]
      exact ⟨rfl, rfl, rfl⟩

theorem read_data_error_state (st : TState) (f : Option FileContent) (ft : String)
    (h : (read_data st f ft).err ≠ none) : (read_data st f ft).st = st := by
  revert h
  unfold read_data
  by_cases h1 : ft = "csv"
  · rw [if_pos h1]
    cases hc : pdReadCsv f <;> intro h <;> first | rfl | exact absurd rfl h
  · rw [if_neg h1]
    by_cases h2 : ft = "pickle"
    · rw [if_pos h2]
      cases hc : pdReadPickle f <;> intro h <;> first | rfl | exact absurd rfl h
    · rw [if_neg h2]
      intro h
      rfl

theorem fetchQueryPart_preserves (A : Archive) (st : TState) (md : Option Nat) :
    (fetchQueryPart A st md).st.telescope = st.telescope ∧
    (fetchQueryPart A st md).st.start_time = st.start_time ∧
    (fetchQueryPart A st md).st.end_time = st.end_time := by
  unfold fetchQueryPart
  cases hq : A.query st.telescope st.start_time st.end_time (pagingOf md) <;>
    exact ⟨rfl, rfl, rfl⟩

theorem fetchQueryPart_error_state (A : Archive) (st : TState) (md : Option Nat)
    (h : (fetchQueryPart A st md).err ≠ none) : (fetchQueryPart A st md).st = st := by
  revert h
  unfold fetchQueryPart
  cases hq : A.query st.telescope st.start_time st.end_time (pagingOf md) <;>
    intro h <;> first | rfl | exact absurd rfl h

theorem fetch_preserves (A : Archive) (st : TState) (md : Option Nat)
    (tok : Option String) :
    (fetch_telescope_data A st md tok).st.telescope = st.telescope ∧
    (fetch_telescope_data A st md tok).st.start_time = st.start_time ∧
    (fetch_telescope_data A st md tok).st.end_time = st.end_time := by
  unfold fetch_telescope_data
  by_cases h1 : truthyStr tok = true
  · rw [if_pos h1]
    cases hl : A.login (optStr tok)
    · exact ⟨rfl, rfl, rfl⟩
    · exact fetchQueryPart_preserves A st md
  · rw [if_neg h1]
    exact fetchQueryPart_preserves A st md

theorem fetch_error_state (A : Archive) (st : TState) (md : Option Nat)
    (tok : Option String) (h : (fetch_telescope_data A st md tok).err ≠ none) :
    (fetch_telescope_data A st md tok).st = st := by
  revert h
  unfold fetch_telescope_data
  by_cases h1 : truthyStr tok = true
  · rw [if_pos h1]
    cases hl : A.login (optStr tok)
    · intro h
      rfl
    · exact fetchQueryPart_error_state A st md
  · rw [if_neg h1]
    exact fetchQueryPart_error_state A st md

theorem read_data_st_telescope (st st3 : TState) (f : Option FileContent)
    (ft : String) (lg : List String) (ev : Option PyError)
    (h : read_data st f ft = ⟨lg, st3, ev⟩) : st3.telescope = st.telescope := by
  have hp := (read_data_preserves st f ft).1
  rw [h] at hp
  exact hp

theorem fetch_st_telescope (A : Archive) (st st3 : TState) (md : Option Nat)
    (tok : Option String) (lg : List String) (ev : Option PyError)
    (h : fetch_telescope_data A st md tok = ⟨lg, st3, ev⟩) :
    st3.telescope = st.telescope := by
  have hp := (fetch_preserves A st md tok).1
  rw [h] at hp
  exact hp

/-- When a truthy telescope argument is passed, `set_data` stores its
uppercased form in the telescope field on EVERY exit path — the assignment at
line 54 happens before the membership check and before any other failure. -/
theorem set_data_telescope_assigned (A : Archive) (now : Time)
    (fs : String → Option FileContent) (st : TState) (tele : Option String)
    (sT eT : Option TimeParam) (md : Option Nat) (tok : Option String)
    (dfp dft : Option String) (htl : truthyStr tele = true) :
    (set_data A now fs st tele sT eT md tok dfp dft).st.telescope =
      some (pyUpper (optStr tele)) := by
  unfold set_data
  rw [htl]
  simp only [eq_self_iff_true, true_and, if_true]
  split
  · rfl
  · split
    · rfl
    · split
      · rfl
      · split
        · rfl
        · split
          · split
            · rfl
            · split
              · rename_i lg st3 heq
                exact read_data_st_telescope _ _ _ _ _ _ heq
              · rename_i lg st3 e2 heq
                exact read_data_st_telescope _ _ _ _ _ _ heq
          · split
            · rename_i lg st3 heq
              exact fetch_st_telescope _ _ _ _ _ _ _ heq
            · rename_i lg st3 e2 heq
              exact fetch_st_telescope _ _ _ _ _ _ _ heq

/-- When the telescope argument is falsy (absent or empty), `set_data` leaves
the telescope field untouched on every exit path. -/
theorem set_data_telescope_skip (A : Archive) (now : Time)
    (fs : String → Option FileContent) (st : TState) (tele : Option String)
    (sT eT : Option TimeParam) (md : Option Nat) (tok : Option String)
    (dfp dft : Option String) (htl : truthyStr tele = false) :
    (set_data A now fs st tele sT eT md tok dfp dft).st.telescope =
      st.telescope := by
  unfold set_data
  rw [htl]
  simp only [Bool.false_eq_true, if_false, false_and]
  split
  · rfl
  · split
    · rfl
    · split
      · rfl
      · split
        · split
          · rfl
          · split
            · rename_i lg st3 heq
              have h3 := read_data_st_telescope _ _ _ _ _ _ heq
              exact h3
            · rename_i lg st3 e2 heq
              have h3 := read_data_st_telescope _ _ _ _ _ _ heq
              exact h3
        · split
          · rename_i lg st3 heq
            have h3 := fetch_st_telescope _ _ _ _ _ _ _ heq
            exact h3
          · rename_i lg st3 e2 heq
            have h3 := fetch_st_telescope _ _ _ _ _ _ _ heq
            exact h3

/-- A truthy telescope argument whose uppercase form is not a known mission
makes `set_data` raise the listing `ValueError`. -/
theorem set_data_unknown_raises (A : Archive) (now : Time)
    (fs : String → Option FileContent) (st : TState) (tele : Option String)
    (sT eT : Option TimeParam) (md : Option Nat) (tok : Option String)
    (dfp dft : Option String) (htl : truthyStr tele = true)
    (hnm : ¬ pyUpper (optStr tele) ∈ A.missions.map pyUpper) :
    (set_data A now fs st tele sT eT md tok dfp dft).err =
      some (PyError.valueError (invalidTelescopeMsg A)) := by
  unfold set_data
  rw [htl]
  simp only [eq_self_iff_true, true_and, if_true]
  rw [if_pos hnm]

/-! ## Claim theorems -/

/-- C2: the code calls `Time(str)` — the builtin type, a typo for
`Time(time)` — so the parseable ISO-8601 string `"2024-01-01"` raises the
improper-format `ValueError` instead of returning the timestamp it denotes;
only the literal `"now"` and already-constructed `Time` objects survive. -/
theorem C2_iso_string_raises :
    validate_and_convert_time_param 60000 (TimeParam.str "2024-01-01") =
      Except.error (PyError.valueError "2024-01-01 -> Improper format for time.") ∧
    validate_and_convert_time_param 60000 (TimeParam.str "now") = Except.ok 60000 ∧
    validate_and_convert_time_param 60000 (TimeParam.time 59000) = Except.ok 59000 :=
  ⟨rfl, rfl, rfl⟩

/-- C9: with a valid telescope identifier, construction with
`start_time > end_time` raises the range `ValueError`, and a reconfiguration
given two `Time` values with start > end raises it too and leaves the stored
range unchanged — the time fields are assigned only on the `start <= end`
path. -/
theorem C9_invalid_range (A : Archive) (now : Time)
    (fs : String → Option FileContent) (st : TState) (t : String) (s e : Time)
    (md : Option Nat) (tok : Option String) (dfp dft : Option String)
    (htne : t ≠ "") (hmem : pyUpper t ∈ A.missions.map pyUpper) (hgt : s > e) :
    (initTelescopeData A now fs t s e md tok dfp dft).err =
        some (PyError.valueError "start_time should be less than end_time.") ∧
    (set_data A now fs st none (some (TimeParam.time s))
        (some (TimeParam.time e)) md tok dfp dft).err =
        some (PyError.valueError "start_time should be less than end_time.") ∧
    (set_data A now fs st none (some (TimeParam.time s))
        (some (TimeParam.time e)) md tok dfp dft).st.start_time = st.start_time ∧
    (set_data A now fs st none (some (TimeParam.time s))
        (some (TimeParam.time e)) md tok dfp dft).st.end_time = st.end_time := by
  refine ⟨?_, ?_, ?_, ?_⟩ <;>
    simp [initTelescopeData, set_data, truthyStr, optStr, htne, hmem,
      resolveTimeParam, TimeParam.truthy, validate_and_convert_time_param, hgt]

/-- C9 witness: a concrete inverted range on a valid telescope. -/
theorem C9_invalid_range_witness :
    (initTelescopeData mastOk 60000 noFs "JWST" 60000 47892 none none none none).err =
        some (PyError.valueError "start_time should be less than end_time.") ∧
    (set_data mastOk 60000 noFs stJ none (some (TimeParam.time 60000))
        (some (TimeParam.time 47892)) none none none none).err =
        some (PyError.valueError "start_time should be less than end_time.") ∧
    (set_data mastOk 60000 noFs stJ none (some (TimeParam.time 60000))
        (some (TimeParam.time 47892)) none none none none).st.start_time =
        stJ.start_time ∧
    (set_data mastOk 60000 noFs stJ none (some (TimeParam.time 60000))
        (some (TimeParam.time 47892)) none none none none).st.end_time =
        stJ.end_time :=
  C9_invalid_range mastOk 60000 noFs stJ "JWST" 60000 47892 none none none none
    (by decide) (by decide) (by decide)

/-- C10: after successful validation and with no auth token, a failing
archive query — and likewise a failing implicit cache load — is caught inside
construction/reconfiguration: no exception reaches the caller, the error text
is printed, and `data` is left as the empty frame. -/
theorem C10_fetch_failure_degrades (A : Archive) (now : Time)
    (fs : String → Option FileContent) (t : String) (s e : Time)
    (md : Option Nat) (p ft : String) (er : PyError) (m : String)
    (htne : t ≠ "") (hmem : pyUpper t ∈ A.missions.map pyUpper)
    (hle : ¬ s > e)
    (hq : A.query (some (pyUpper t)) s e (pagingOf md) = Except.error m)
    (hp : p ≠ "") (hft : ft ≠ "")
    (hread : (read_data ⟨some (pyUpper t), s, e, DataFrame.empty⟩ (fs p) ft).err =
      some er) :
    (initTelescopeData A now fs t s e md none none none).err = none ∧
    (initTelescopeData A now fs t s e md none none none).st.data =
      DataFrame.empty ∧
    "[ Error getting data ]" ∈ (initTelescopeData A now fs t s e md none none none).log ∧
    (initTelescopeData A now fs t s e md none (some p) (some ft)).err = none ∧
    (initTelescopeData A now fs t s e md none (some p) (some ft)).st.data =
      DataFrame.empty ∧
    er.msg ∈ (initTelescopeData A now fs t s e md none (some p) (some ft)).log := by
  have h1 : truthyStr (some t) = true := by simp [truthyStr, htne]
  have hp1 : truthyStr (some p) = true := by simp [truthyStr, hp]
  have hf1 : truthyStr (some ft) = true := by simp [truthyStr, hft]
  rcases hrd : read_data ⟨some (pyUpper t), s, e, DataFrame.empty⟩ (fs p) ft with
    ⟨lg, st3, errv⟩
  have herrv : errv = some er := by
    rw [hrd] at hread
    exact hread
  have hst3 : st3 = ⟨some (pyUpper t), s, e, DataFrame.empty⟩ := by
    have hpr := read_data_error_state ⟨some (pyUpper t), s, e, DataFrame.empty⟩
      (fs p) ft (by rw [hrd, herrv]; simp)
    rw [hrd] at hpr
    exact hpr
  subst herrv
  subst hst3
  refine ⟨?_, ?_, ?_, ?_, ?_, ?_⟩ <;>
    simp [initTelescopeData, set_data, initState, h1, hp1, hf1, optStr, truthyStr,
      htne, hp, hft, resolveTimeParam, TimeParam.truthy,
      validate_and_convert_time_param, hle, hmem, fetch_telescope_data,
      fetchQueryPart, hq, hrd]

/-- C10 witness: a concrete down archive and a missing cache file. -/
theorem C10_fetch_failure_degrades_witness :
    (initTelescopeData mastDown 60000 noFs "JWST" 47892 60000 none none none none).err =
      none ∧
    (initTelescopeData mastDown 60000 noFs "JWST" 47892 60000 none none none none).st.data =
      DataFrame.empty ∧
    "[ Error getting data ]" ∈
      (initTelescopeData mastDown 60000 noFs "JWST" 47892 60000 none none none none).log ∧
    (initTelescopeData mastDown 60000 noFs "JWST" 47892 60000 none none
      (some "telescope_data.csv") (some "csv")).err = none ∧
    (initTelescopeData mastDown 60000 noFs "JWST" 47892 60000 none none
      (some "telescope_data.csv") (some "csv")).st.data = DataFrame.empty ∧
    (PyError.fileNotFoundError "No such file or directory").msg ∈
      (initTelescopeData mastDown 60000 noFs "JWST" 47892 60000 none none
        (some "telescope_data.csv") (some "csv")).log :=
  C10_fetch_failure_degrades mastDown 60000 noFs "JWST" 47892 60000 none
    "telescope_data.csv" "csv" (PyError.fileNotFoundError "No such file or directory")
    "MemoryError" (by decide) (by decide) (by decide) rfl (by decide) (by decide) rfl

/-- C1 counterexample: constructing against an archive that rejects the
token, with an auth token supplied, raises nothing to the caller — the login
failure is printed and degraded to an empty table, exactly like a query
failure, refuting the claimed propagation out of construct/reconfigure. -/
theorem C1_counterexample :
    (initTelescopeData mastBadAuth 60000 noFs "JWST" 47892 60000 none
      (some "my-token") none none).err = none ∧
    (initTelescopeData mastBadAuth 60000 noFs "JWST" 47892 60000 none
      (some "my-token") none none).st.data = DataFrame.empty ∧
    "[ Login error. ]" ∈ (initTelescopeData mastBadAuth 60000 noFs "JWST" 47892
      60000 none (some "my-token") none none).log :=
  ⟨rfl, rfl, by decide⟩

/-- C1 amended: an authentication failure is re-raised out of
`fetch_telescope_data` itself — the fetch aborts before any query, with only
the login-error banner printed — but when the fetch runs inside
construction/reconfiguration, the blanket handler in `set_data` catches it
exactly like a query failure and degrades to an empty table. -/
theorem C1_auth_failure_caught (A : Archive) (now : Time)
    (fs : String → Option FileContent) (st : TState) (t : String) (s e : Time)
    (md : Option Nat) (tok : Option String) (m : String)
    (htok : truthyStr tok = true)
    (hlogin : A.login (optStr tok) = Except.error m)
    (htne : t ≠ "") (hmem : pyUpper t ∈ A.missions.map pyUpper)
    (hle : ¬ s > e) :
    (fetch_telescope_data A st md tok).err = some (PyError.loginError m) ∧
    (fetch_telescope_data A st md tok).st = st ∧
    (fetch_telescope_data A st md tok).log = ["[ Login error. ]"] ∧
    (initTelescopeData A now fs t s e md tok none none).err = none ∧
    (initTelescopeData A now fs t s e md tok none none).st.data =
      DataFrame.empty := by
  have hfe : ∀ stx : TState, fetch_telescope_data A stx md tok =
      ⟨["[ Login error. ]"], stx, some (PyError.loginError m)⟩ := by
    intro stx
    unfold fetch_telescope_data
    rw [if_pos htok, hlogin]
  refine ⟨?_, ?_, ?_, ?_, ?_⟩
  · rw [hfe]
  · rw [hfe]
  · rw [hfe]
  · simp [initTelescopeData, set_data, initState, truthyStr, optStr, htne,
      resolveTimeParam, TimeParam.truthy, validate_and_convert_time_param, hle,
      hmem, hfe]
  · simp [initTelescopeData, set_data, initState, truthyStr, optStr, htne,
      resolveTimeParam, TimeParam.truthy, validate_and_convert_time_param, hle,
      hmem, hfe]

/-- C1 witness: the concrete bad-auth archive. -/
theorem C1_auth_failure_caught_witness :
    (fetch_telescope_data mastBadAuth stJ none (some "my-token")).err =
      some (PyError.loginError "401 Unauthorized") ∧
    (fetch_telescope_data mastBadAuth stJ none (some "my-token")).st = stJ ∧
    (fetch_telescope_data mastBadAuth stJ none (some "my-token")).log =
      ["[ Login error. ]"] ∧
    (initTelescopeData mastBadAuth 60000 noFs "JWST" 47892 60000 none
      (some "my-token") none none).err = none ∧
    (initTelescopeData mastBadAuth 60000 noFs "JWST" 47892 60000 none
      (some "my-token") none none).st.data = DataFrame.empty :=
  C1_auth_failure_caught mastBadAuth 60000 noFs stJ "JWST" 47892 60000 none
    (some "my-token") "401 Unauthorized" (by decide) rfl (by decide) (by decide)
    (by decide)

/-- C8 counterexample: the empty identifier is falsy, so construction with
`telescope = ""` neither stores it uppercased nor raises the unknown-telescope
error, although `""` is not in the mission set — the claimed dichotomy fails. -/
theorem C8_counterexample :
    (initTelescopeData mastOk 60000 noFs "" 47892 60000 none none none none).err =
      none ∧
    (initTelescopeData mastOk 60000 noFs "" 47892 60000 none none none
      none).st.telescope = none ∧
    ¬ pyUpper "" ∈ mastOk.missions.map pyUpper :=
  ⟨rfl, rfl, by decide⟩

/-- C8 amended: for every NON-empty identifier, each assignment of the
telescope parameter stores the uppercased identifier, and the call succeeds
exactly when that uppercase form is a member of the mission list (membership
is case-insensitive); a non-member raises the `ValueError` listing the valid
set. The empty identifier is treated as "no telescope given" and bypasses
validation. -/
theorem C8_nonempty_id (A : Archive) (now : Time)
    (fs : String → Option FileContent) (st : TState) (idf : String)
    (hne : idf ≠ "") (hle : ¬ st.start_time > st.end_time) :
    (set_data A now fs st (some idf) none none none none none
        none).st.telescope = some (pyUpper idf) ∧
    ((set_data A now fs st (some idf) none none none none none none).err =
        none ↔ pyUpper idf ∈ A.missions.map pyUpper) ∧
    (¬ pyUpper idf ∈ A.missions.map pyUpper →
      (set_data A now fs st (some idf) none none none none none none).err =
        some (PyError.valueError (invalidTelescopeMsg A))) := by
  by_cases hm : pyUpper idf ∈ A.missions.map pyUpper
  · cases hq : A.query (some (pyUpper idf)) st.start_time st.end_time none <;>
      refine ⟨?_, ?_, ?_⟩ <;>
        simp [set_data, truthyStr, optStr, hne, hm, resolveTimeParam, hle,
          fetch_telescope_data, fetchQueryPart, pagingOf, hq]
  · refine ⟨?_, ?_, ?_⟩ <;>
      simp [set_data, truthyStr, optStr, hne, hm]

/-- C8 witness: a valid lowercase identifier is stored uppercased and an
unknown one raises the listing error. -/
theorem C8_nonempty_id_witness :
    ((set_data mastOk 60000 noFs stJ (some "tess") none none none none none
        none).st.telescope = some (pyUpper "tess") ∧
      ((set_data mastOk 60000 noFs stJ (some "tess") none none none none none
          none).err = none ↔ pyUpper "tess" ∈ mastOk.missions.map pyUpper) ∧
      (¬ pyUpper "tess" ∈ mastOk.missions.map pyUpper →
        (set_data mastOk 60000 noFs stJ (some "tess") none none none none none
            none).err = some (PyError.valueError (invalidTelescopeMsg mastOk)))) ∧
    ((set_data mastOk 60000 noFs stJ (some "nonsense name") none none none none
        none none).st.telescope = some (pyUpper "nonsense name") ∧
      ((set_data mastOk 60000 noFs stJ (some "nonsense name") none none none
          none none none).err = none ↔
        pyUpper "nonsense name" ∈ mastOk.missions.map pyUpper) ∧
      (¬ pyUpper "nonsense name" ∈ mastOk.missions.map pyUpper →
        (set_data mastOk 60000 noFs stJ (some "nonsense name") none none none
            none none none).err =
          some (PyError.valueError (invalidTelescopeMsg mastOk)))) :=
  ⟨C8_nonempty_id mastOk 60000 noFs stJ "tess" (by decide) (by decide),
    C8_nonempty_id mastOk 60000 noFs stJ "nonsense name" (by decide) (by decide)⟩

/-- C7 counterexample: construct successfully with `"JWST"`, then reconfigure
with `"nonsense name"`: the call raises, yet the stored telescope field now
holds `"NONSENSE NAME"`, which is not in the mission set — the claimed
invariant is violated in a reachable state and the prior value is lost. -/
theorem C7_counterexample :
    (initTelescopeData mastOk 60000 noFs "JWST" 47892 60000 none none none
      none).err = none ∧
    (set_data mastOk 60000 noFs
        (initTelescopeData mastOk 60000 noFs "JWST" 47892 60000 none none none
          none).st
        (some "nonsense name") none none none none none none).err =
      some (PyError.valueError (invalidTelescopeMsg mastOk)) ∧
    (set_data mastOk 60000 noFs
        (initTelescopeData mastOk 60000 noFs "JWST" 47892 60000 none none none
          none).st
        (some "nonsense name") none none none none none none).st.telescope =
      some "NONSENSE NAME" ∧
    ¬ "NONSENSE NAME" ∈ mastOk.missions.map pyUpper :=
  ⟨rfl, rfl, rfl, by decide⟩

/-- C7 amended: the invariant holds along SUCCESSFUL calls — if the stored
telescope is unset or a normalised member of the mission set and a
`set_data` call returns without raising, the resulting telescope is again
unset or a normalised member. (A call that raises the unknown-telescope error
instead overwrites the field with the invalid uppercased identifier, as the
counterexample shows.) -/
theorem C7_invariant_preserved (A : Archive) (now : Time)
    (fs : String → Option FileContent) (st : TState) (tele : Option String)
    (sT eT : Option TimeParam) (md : Option Nat) (tok : Option String)
    (dfp dft : Option String) (hv : TelValid A st.telescope)
    (hok : (set_data A now fs st tele sT eT md tok dfp dft).err = none) :
    TelValid A (set_data A now fs st tele sT eT md tok dfp dft).st.telescope := by
  by_cases htl : truthyStr tele = true
  · right
    refine ⟨pyUpper (optStr tele),
      set_data_telescope_assigned A now fs st tele sT eT md tok dfp dft htl, ?_⟩
    by_contra hnm
    rw [set_data_unknown_raises A now fs st tele sT eT md tok dfp dft htl hnm]
      at hok
    exact Option.noConfusion hok
  · rw [set_data_telescope_skip A now fs st tele sT eT md tok dfp dft
      (by simpa using htl)]
    exact hv

/-- C7 witness: a successful reconfiguration from `"JWST"` to `"hst"`. -/
theorem C7_invariant_preserved_witness :
    TelValid mastOk (set_data mastOk 60000 noFs stJ (some "hst") none none none
      none none none).st.telescope :=
  C7_invariant_preserved mastOk 60000 noFs stJ (some "hst") none none none none
    none none (Or.inr ⟨"JWST", rfl, by decide⟩) rfl

/-- C3 counterexample: on the fully empty table `pd.DataFrame()` — exactly
the state a failed fetch leaves behind — both pie methods raise the pandas
`KeyError` instead of returning an empty figure. -/
theorem C3_counterexample :
    instruments_pie stEmpty = Except.error (PyError.keyError "instrument_name") ∧
    data_type_pie stEmpty = Except.error (PyError.keyError "dataproduct_type") :=
  ⟨rfl, rfl⟩

/-- C3 amended: on an empty table that still CARRIES the grouped column
(zero rows), each pie method returns a figure with an empty data series and
raises nothing; only the column-less empty frame raises. -/
theorem C3_empty_with_columns (st : TState) (t : String)
    (htel : st.telescope = some t) (hrows : st.data.rows = [])
    (hi : "instrument_name" ∈ st.data.cols)
    (hd : "dataproduct_type" ∈ st.data.cols) :
    (instruments_pie st).map (fun f => (f.names, f.values)) =
      Except.ok ([], []) ∧
    (data_type_pie st).map (fun f => (f.names, f.values)) =
      Except.ok ([], []) := by
  have hcol1 : st.data.getCol "instrument_name" = Except.ok [] := by
    unfold DataFrame.getCol
    rw [if_pos hi, hrows]
    rfl
  have hcol2 : st.data.getCol "dataproduct_type" = Except.ok [] := by
    unfold DataFrame.getCol
    rw [if_pos hd, hrows]
    rfl
  constructor <;>
    simp [instruments_pie, data_type_pie, htel, pieChart, hcol1, hcol2,
      valueCounts, Except.map]

/-- C3 witness: the zero-row table that keeps its chart columns. -/
theorem C3_empty_with_columns_witness :
    (instruments_pie stEmptyRows).map (fun f => (f.names, f.values)) =
      Except.ok ([], []) ∧
    (data_type_pie stEmptyRows).map (fun f => (f.names, f.values)) =
      Except.ok ([], []) :=
  C3_empty_with_columns stEmptyRows "JWST" rfl rfl (by decide) (by decide)

/-- C4 counterexample: with the unsupported format token `"json"`,
`export_data` writes nothing and raises nothing (it silently returns), and
`read_data` raises an unbound-local error — not a deliberate
unsupported-format exception — while leaving the table untouched. -/
theorem C4_counterexample :
    export_data stJ "telescope_data.csv" "json" = none ∧
    (read_data stJ none "json").err = some (PyError.nameError
      "cannot access local variable data where it is not associated with a value") ∧
    (read_data stJ none "json").st = stJ :=
  ⟨rfl, rfl, rfl⟩

/-- C4 amended: for every format token other than `"csv"` and `"pickle"`,
`export_data` silently succeeds without writing (no error is raised), and
`read_data` raises the accidental unbound-local `NameError` — there is no
`UnsupportedFormat` error — and does not replace the table. -/
theorem C4_unsupported_format (st : TState) (fn ft : String)
    (file : Option FileContent) (h1 : ft ≠ "csv") (h2 : ft ≠ "pickle") :
    export_data st fn ft = none ∧
    (read_data st file ft).err = some (PyError.nameError
      "cannot access local variable data where it is not associated with a value") ∧
    (read_data st file ft).st = st := by
  refine ⟨?_, ?_, ?_⟩ <;> simp [export_data, read_data, h1, h2]

/-- C4 witness: the concrete unsupported token `"json"`. -/
theorem C4_unsupported_format_witness :
    export_data stEmpty "telescope_data.csv" "json" = none ∧
    (read_data stEmpty none "json").err = some (PyError.nameError
      "cannot access local variable data where it is not associated with a value") ∧
    (read_data stEmpty none "json").st = stEmpty :=
  C4_unsupported_format stEmpty "telescope_data.csv" "json" none (by decide)
    (by decide)

/-- C6 counterexample: with a missing x column, `compare_scatter` returns
`None` after printing — no `ColumnNotFound` reaches the caller — and with the
categorical `instrument_name` column it returns a figure rather than raising
`NonNumericColumn`. -/
theorem C6_counterexample :
    (compare_scatter stJ "nonexistent_col" "t_exptime").2 = none ∧
    (compare_scatter stJ "nonexistent_col" "t_exptime").1 ≠ [] ∧
    (compare_scatter stJ "instrument_name" "t_exptime").2.isSome = true :=
  ⟨rfl, by decide, rfl⟩

/-- C6 amended: whenever either requested column is absent, the plotting
error is caught inside `compare_scatter`: the warning line is printed and a
null result (`None`) is returned to the caller instead of an exception. -/
theorem C6_swallowed (st : TState) (x y : String)
    (h : ¬ x ∈ st.data.cols ∨ ¬ y ∈ st.data.cols) :
    (compare_scatter st x y).2 = none ∧
    "Error, likely gave invalid column name(s), or columns that weren\x27t numeric." ∈
      (compare_scatter st x y).1 := by
  rcases h with hx | hy
  · constructor <;> simp [compare_scatter, pxScatter, hx]
  · by_cases hx2 : x ∈ st.data.cols
    · constructor <;> simp [compare_scatter, pxScatter, hx2, hy]
    · constructor <;> simp [compare_scatter, pxScatter, hx2]

/-- C6 witness: a concrete missing column on the populated table. -/
theorem C6_swallowed_witness :
    (compare_scatter stJ "nonexistent_col" "t_exptime").2 = none ∧
    "Error, likely gave invalid column name(s), or columns that weren\x27t numeric." ∈
      (compare_scatter stJ "nonexistent_col" "t_exptime").1 :=
  C6_swallowed stJ "nonexistent_col" "t_exptime" (Or.inl (by decide))

theorem indexRows_length (i : Nat) (rs : List (List String)) :
    (indexRows i rs).length = rs.length := by
  induction rs generalizing i with
  | nil => rfl
  | cons r rs ih => simp [indexRows, ih]

/-- Indexed row lines are never blank when the underlying rows are nonempty,
so the `skip_blank_lines` filter keeps all of them. -/
theorem indexRows_filter_nonblank (i : Nat) (rs : List (List String))
    (h : ∀ r ∈ rs, r ≠ []) :
    (indexRows i rs).filter (fun l => decide (l ≠ [""])) = indexRows i rs := by
  induction rs generalizing i with
  | nil => rfl
  | cons r rs ih =>
    have hr : r ≠ [] := h r (List.mem_cons_self r rs)
    have hline : (toString i :: r) ≠ [""] := by
      cases r with
      | nil => exact absurd rfl hr
      | cons a as =>
        intro hc
        simp at hc
    simp only [indexRows, List.filter_cons, decide_eq_true hline, if_true]
    rw [ih (i + 1) (fun r hm => h r (List.mem_cons_of_mem _ hm))]

/-- Header fixing leaves nonempty column names unchanged. -/
theorem fixCols_nonempty (i : Nat) (cs : List String)
    (h : ∀ c ∈ cs, c ≠ "") : fixCols i cs = cs := by
  induction cs generalizing i with
  | nil => rfl
  | cons c cs ih =>
    have hc : c ≠ "" := h c (List.mem_cons_self c cs)
    simp [fixCols, hc, ih (i + 1) (fun d hm => h d (List.mem_cons_of_mem _ hm))]

/-- C5 counterexample: exporting the one-column table `{a: [1]}` to csv and
importing it back succeeds but yields columns `["Unnamed: 0", "a"]` — the
serialised row index comes back as an extra column, so the column set is NOT
preserved. -/
theorem C5_counterexample :
    (read_data (initState 0)
        ((export_data stA "telescope_data.csv" "csv").map Prod.snd)
        "csv").err = none ∧
    (read_data (initState 0)
        ((export_data stA "telescope_data.csv" "csv").map Prod.snd)
        "csv").st.data.cols = ["Unnamed: 0", "a"] ∧
    ¬ (read_data (initState 0)
        ((export_data stA "telescope_data.csv" "csv").map Prod.snd)
        "csv").st.data.cols = stA.data.cols :=
  ⟨rfl, rfl, by decide⟩

/-- C5 amended: for a table with at least one (nonempty-named) column and
pandas-shaped rows, the csv round trip succeeds and preserves the row count,
but the imported column list gains the serialised index as a leading
`"Unnamed: 0"` column; the fully empty `pd.DataFrame()` cannot be round
tripped at all — its csv reads back as `EmptyDataError`. -/
theorem C5_roundtrip (st st2 : TState) (fn : String)
    (hcols : st.data.cols ≠ []) (hnames : ∀ c ∈ st.data.cols, c ≠ "")
    (hwf : ∀ r ∈ st.data.rows, r ≠ []) :
    export_data st fn "csv" = some (fn, FileContent.csv (pdToCsv st.data)) ∧
    (read_data st2 (some (FileContent.csv (pdToCsv st.data))) "csv").err =
      none ∧
    (read_data st2 (some (FileContent.csv (pdToCsv st.data))) "csv").st.data.cols =
      "Unnamed: 0" :: st.data.cols ∧
    (read_data st2 (some (FileContent.csv (pdToCsv st.data))) "csv").st.data.rows.length =
      st.data.rows.length ∧
    (read_data (initState 0) (some (FileContent.csv (pdToCsv DataFrame.empty)))
        "csv").err = some PyError.emptyDataError := by
  have hhead : (("" : String) :: st.data.cols) ≠ [""] := by
    intro hc
    exact hcols (List.cons.injEq .. ▸ hc).2
  have hfix : fixCols 0 ("" :: st.data.cols) = "Unnamed: 0" :: st.data.cols := by
    have h0 : ("Unnamed: " ++ toString (0 : Nat)) = "Unnamed: 0" := rfl
    simp [fixCols, h0, fixCols_nonempty 1 st.data.cols hnames]
  have hread : pdReadCsv (some (FileContent.csv (pdToCsv st.data))) =
      Except.ok ⟨"Unnamed: 0" :: st.data.cols, indexRows 0 st.data.rows⟩ := by
    unfold pdReadCsv pdToCsv
    simp only [List.filter_cons, decide_eq_true hhead, if_true,
      indexRows_filter_nonblank 0 st.data.rows hwf, hfix]
  refine ⟨rfl, ?_, ?_, ?_, rfl⟩ <;>
    simp [read_data, hread, indexRows_length]

/-- C5 witness: the one-cell table. -/
theorem C5_roundtrip_witness :
    export_data stA "telescope_data.csv" "csv" =
      some ("telescope_data.csv", FileContent.csv (pdToCsv stA.data)) ∧
    (read_data stEmpty (some (FileContent.csv (pdToCsv stA.data))) "csv").err =
      none ∧
    (read_data stEmpty (some (FileContent.csv (pdToCsv stA.data))) "csv").st.data.cols =
      "Unnamed: 0" :: stA.data.cols ∧
    (read_data stEmpty (some (FileContent.csv (pdToCsv stA.data))) "csv").st.data.rows.length =
      stA.data.rows.length ∧
    (read_data (initState 0) (some (FileContent.csv (pdToCsv DataFrame.empty)))
        "csv").err = some PyError.emptyDataError :=
  C5_roundtrip stA stEmpty "telescope_data.csv" (by decide) (by decide)
    (by decide)
